import Mathlib

/-!
# Verification of the laptop-recommendation service

Shallow embedding of the recommendation code of the repository
(`services/api-gateway/src/routes/health.ts`, which contains the
recommendations routes, and `services/api-gateway/src/routes/laptops.ts`),
together with theorems checking the specification's claims against it.

Modelling conventions:
* SQL tables are lists of rows; a query is a pure function from a `Database`
  value to the list of selected rows.  `ORDER BY` is modelled by a stable
  insertion sort on the declared sort key (equal keys keep the underlying
  scan order), `LIMIT`/`OFFSET` by `List.take`/`List.drop`.
* All SQL/JSON numerics are modelled as `Int` (the concrete programs only
  ever compare and order them); the one literal fraction in the source, the
  fallback relevance score `0.5`, is modelled as the rational `fallbackScore`.
* JavaScript truthiness tests on numbers (`if (prefs.max_budget)`) are
  modelled as "present and nonzero"; on object/string options as "present".
* JavaScript objects with possibly-missing keys are modelled as structures
  of `Option` fields; optional chaining `a?.b` becomes `Option.bind`.
* Fallible steps return `Except`.
-/

/-- The eight usage strings accepted by `recommendationSchema.primary_usage`. -/
inductive Usage where
  | Gaming | Programming | Design | VideoEditing | Office | Student | General | Workstation
  deriving DecidableEq, Repr

/-- The string of each usage value, as it appears in the request JSON. -/
def Usage.toJsonString : Usage → String
  | .Gaming => "Gaming"
  | .Programming => "Programming"
  | .Design => "Design"
  | .VideoEditing => "Video Editing"
  | .Office => "Office"
  | .Student => "Student"
  | .General => "General"
  | .Workstation => "Workstation"

/-- The three GPU classes accepted by `recommendationSchema.preferred_gpu_type`. -/
inductive GpuType where
  | Integrated | Dedicated | Hybrid
  deriving DecidableEq, Repr

/-- The string of each GPU class, as used both in the request JSON and in the
`hardware_specs.gpu_type` column. -/
def GpuType.toDbString : GpuType → String
  | .Integrated => "Integrated"
  | .Dedicated => "Dedicated"
  | .Hybrid => "Hybrid"

/-- The parsed `user_preferences` object of `recommendationSchema`
(health.ts lines 52-63).  Every field except `primary_usage` is optional. -/
structure UserPreferences where
  min_budget : Option Int := none
  max_budget : Option Int := none
  primary_usage : Usage
  min_ram_gb : Option Int := none
  min_storage_gb : Option Int := none
  preferred_gpu_type : Option GpuType := none
  min_display_size : Option Int := none
  max_weight_kg : Option Int := none
  prefer_thin_and_light : Option Bool := none
  deriving DecidableEq, Repr

/-- JavaScript truthiness of a possibly-absent number (`if (x)`):
present and nonzero. -/
def truthyNum : Option Int → Bool
  | none => false
  | some v => v != 0

/-- JavaScript truthiness of a possibly-absent boolean (`if (x)`). -/
def truthyBool : Option Bool → Bool
  | none => false
  | some b => b

/-- A row of the `brands` table. -/
structure Brand where
  brand_id : Nat
  brand_name : String
  brand_slug : String
  deriving DecidableEq, Repr

/-- A row of the `hardware_specs` table (the columns the embedded queries read). -/
structure HardwareSpec where
  spec_id : Nat
  processor_brand : String := ""
  processor_model : String := ""
  processor_cores : Int := 0
  ram_gb : Int
  storage_type : String := ""
  storage_capacity_gb : Int := 0
  gpu_type : String
  gpu_brand : String := ""
  gpu_model : String := ""
  display_size_inches : Int := 0
  display_resolution : String := ""
  refresh_rate_hz : Int := 0
  weight_kg : Int := 0
  battery_whr : Int := 0
  deriving DecidableEq, Repr

/-- A row of the `laptop_models` table. -/
structure LaptopModel where
  model_id : Nat
  brand_id : Nat
  spec_id : Nat
  model_name : String
  model_number : String := ""
  series : String := ""
  release_year : Int := 0
  short_description : String := ""
  product_image_url : String := ""
  is_discontinued : Bool
  deriving DecidableEq, Repr

/-- A row of the `inventory` table. -/
structure InventoryItem where
  inventory_id : Nat
  model_id : Nat
  unit_price : Int
  is_available : Bool
  stock_quantity : Int
  deriving DecidableEq, Repr

/-- A row of the `recommendations` analytics table (used by GET /trending). -/
structure RecommendationRecord where
  recommendation_id : Nat
  model_id : Nat
  created_at : Int
  deriving DecidableEq, Repr

/-- The database state read by the embedded queries. -/
structure Database where
  laptop_models : List LaptopModel
  brands : List Brand
  hardware_specs : List HardwareSpec
  inventory : List InventoryItem
  recommendations : List RecommendationRecord := []
  deriving Repr

/-- One row of the four-way inner join
`laptop_models JOIN brands JOIN hardware_specs JOIN inventory`
used by `getFallbackRecommendations` (health.ts lines 404-407). -/
structure JoinedRow where
  lm : LaptopModel
  b : Brand
  hs : HardwareSpec
  i : InventoryItem
  deriving DecidableEq, Repr

/-- The inner join of the fallback query, in table-scan order. -/
def innerJoinRows (db : Database) : List JoinedRow :=
  db.laptop_models.flatMap fun lm =>
    (db.brands.filter fun b => b.brand_id == lm.brand_id).flatMap fun b =>
      (db.hardware_specs.filter fun hs => hs.spec_id == lm.spec_id).flatMap fun hs =>
        (db.inventory.filter fun i => i.model_id == lm.model_id).map fun i =>
          { lm := lm, b := b, hs := hs, i := i }

/-- The condition pushed for `prefs.max_budget` when it is truthy
(`i.unit_price <= $n`, health.ts lines 373-377); otherwise no condition. -/
def condTruthyLe (o : Option Int) (x : Int) : Bool :=
  match o with
  | some v => if v != 0 then decide (x ≤ v) else true
  | none => true

/-- The condition pushed for `prefs.min_ram_gb` when it is truthy
(`hs.ram_gb >= $n`, health.ts lines 379-383); otherwise no condition. -/
def condTruthyGe (o : Option Int) (x : Int) : Bool :=
  match o with
  | some v => if v != 0 then decide (v ≤ x) else true
  | none => true

/-- The condition pushed for `prefs.preferred_gpu_type` when present
(`hs.gpu_type = $n`, health.ts lines 385-389); otherwise no condition. -/
def condGpu (o : Option GpuType) (s : String) : Bool :=
  match o with
  | some g => s == g.toDbString
  | none => true

/-- The full WHERE clause of the fallback query (health.ts lines 369-391):
the three fixed conditions plus the three preference-dependent ones. -/
def fallbackConds (prefs : UserPreferences) (jr : JoinedRow) : Bool :=
  (!jr.lm.is_discontinued) && jr.i.is_available && decide (0 < jr.i.stock_quantity)
    && condTruthyLe prefs.max_budget jr.i.unit_price
    && condTruthyGe prefs.min_ram_gb jr.hs.ram_gb
    && condGpu prefs.preferred_gpu_type jr.hs.gpu_type

/-- The joined rows surviving the fallback WHERE clause. -/
def fallbackFilterRows (db : Database) (prefs : UserPreferences) : List JoinedRow :=
  (innerJoinRows db).filter (fallbackConds prefs)

/-- `ORDER BY i.unit_price ASC` (health.ts line 409) as a relation on joined rows. -/
def priceLe (a b : JoinedRow) : Prop := a.i.unit_price ≤ b.i.unit_price

instance : DecidableRel priceLe :=
  fun a b => inferInstanceAs (Decidable (a.i.unit_price ≤ b.i.unit_price))

instance : IsTotal JoinedRow priceLe := ⟨fun a b => Int.le_total a.i.unit_price b.i.unit_price⟩

instance : IsTrans JoinedRow priceLe := ⟨fun _ _ _ h h' => Int.le_trans h h'⟩

/-- The surviving rows ordered by ascending live unit price.  The SQL `ORDER BY`
names no tie-break key; the embedding resolves ties by the underlying scan
order (stable sort). -/
def fallbackSorted (db : Database) (prefs : UserPreferences) : List JoinedRow :=
  (fallbackFilterRows db prefs).insertionSort priceLe

/-- The fallback query's fixed `0.5 as relevance_score` (health.ts line 403). -/
def fallbackScore : ℚ := 1 / 2

/-- A JavaScript laptop object as it appears in responses.  The two code paths
select different column sets, so every key is optional; a key the query did
not select is `none` (JavaScript `undefined`). -/
structure LaptopObj where
  model_id : Option Nat := none
  spec_id : Option Nat := none
  model_name : Option String := none
  series : Option String := none
  short_description : Option String := none
  product_image_url : Option String := none
  brand_name : Option String := none
  brand_slug : Option String := none
  processor_model : Option String := none
  ram_gb : Option Int := none
  storage_capacity_gb : Option Int := none
  gpu_type : Option String := none
  gpu_model : Option String := none
  display_size_inches : Option Int := none
  min_price : Option Int := none
  available_from : Option Nat := none
  relevance_score : Option ℚ := none
  deriving DecidableEq, Repr

/-- The SELECT list of the fallback query (health.ts lines 394-403): note that
`lm.model_id` is aliased to `spec_id` and `i.unit_price` to `min_price`, and
that `gpu_type` (not `gpu_model`) is selected. -/
def selectFallbackRow (jr : JoinedRow) : LaptopObj :=
  { spec_id := some jr.lm.model_id
    model_name := some jr.lm.model_name
    series := some jr.lm.series
    brand_name := some jr.b.brand_name
    ram_gb := some jr.hs.ram_gb
    storage_capacity_gb := some jr.hs.storage_capacity_gb
    gpu_type := some jr.hs.gpu_type
    min_price := some jr.i.unit_price
    relevance_score := some fallbackScore }

/-- One element of a `recommendations` response array: the AI fields plus the
laptop object (`null` when the enrichment query found no row). -/
structure RecItem where
  spec_id : Nat
  relevance_score : ℚ
  matched_features : List String
  laptop : Option LaptopObj
  deriving DecidableEq, Repr

/-- The final row mapping of `getFallbackRecommendations`
(health.ts lines 417-422). -/
def fallbackRecOfRow (jr : JoinedRow) : RecItem :=
  { spec_id := jr.lm.model_id
    relevance_score := fallbackScore
    matched_features := []
    laptop := some (selectFallbackRow jr) }

/-- The result set of the fallback query: filter, sort ascending by price,
`LIMIT top_k`, then map each row to a recommendation object
(health.ts lines 364-423). -/
def getFallbackRecommendations (db : Database) (prefs : UserPreferences)
    (top_k : Nat) : List RecItem :=
  (((fallbackSorted db prefs).take top_k).map fallbackRecOfRow)

/-- A JavaScript runtime error raised by the handler. -/
inductive JsError where
  | referenceError (name : String)
  deriving DecidableEq, Repr

/-- The identifiers visible inside the body of `getFallbackRecommendations`:
its parameters and local bindings (health.ts lines 364-415) together with the
declarations of its module — the module imports only `FastifyPluginAsync`,
`getPool` and `z` from its import lines (health.ts lines 48-50), not `db`.
The identifier `db` is bound only inside the route handlers
(`const db = getPool()`), never at module scope, so it is not in this list. -/
def fallbackVisibleNames : List String :=
  ["app", "body", "prefs", "conditions", "values", "paramIndex",
   "whereClause", "query", "result",
   "FastifyPluginAsync", "getPool", "z",
   "recommendationSchema", "AI_COMPUTE_URL", "recommendationsRoutes",
   "generateRecommendationReason", "getFallbackRecommendations"]

/-- Executing `getFallbackRecommendations`: the function body evaluates
`await db.query(query, values)` (health.ts line 415); resolving the free
identifier `db` against the visible scope decides between the query result and
a thrown `ReferenceError`. -/
def runGetFallbackRecommendations (db : Database) (prefs : UserPreferences)
    (top_k : Nat) : Except JsError (List RecItem) :=
  if "db" ∈ fallbackVisibleNames then
    Except.ok (getFallbackRecommendations db prefs top_k)
  else
    Except.error (JsError.referenceError "db")

/-- One recommendation as returned by the ai-compute service
(`aiData.recommendations`, health.ts line 95). -/
structure AiRecommendation where
  spec_id : Nat
  relevance_score : ℚ
  matched_features : List String := []
  deriving DecidableEq, Repr

/-- The body of the ai-compute response (health.ts lines 91, 143). -/
structure AiResponse where
  recommendations : List AiRecommendation
  confidence : Option ℚ := none
  deriving DecidableEq, Repr

/-- The per-recommendation enrichment query (health.ts lines 96-122):
`WHERE lm.model_id = $1`, inner joins on brand and spec, LEFT JOIN on
available inventory, `MIN(i.unit_price)` and `COUNT(i.inventory_id)` per
model.  `rows[0] || null` becomes `Option`.  Note the SELECT list includes
`hs.gpu_model` but not `hs.gpu_type`. -/
def enrichmentQuery (db : Database) (specId : Nat) : Option LaptopObj :=
  (db.laptop_models.filter fun lm => lm.model_id == specId).flatMap (fun lm =>
    (db.brands.filter fun b => b.brand_id == lm.brand_id).flatMap fun b =>
      (db.hardware_specs.filter fun hs => hs.spec_id == lm.spec_id).map fun hs =>
        let avail := db.inventory.filter fun i =>
          i.model_id == lm.model_id && i.is_available
        { model_id := some lm.model_id
          model_name := some lm.model_name
          series := some lm.series
          short_description := some lm.short_description
          product_image_url := some lm.product_image_url
          brand_name := some b.brand_name
          brand_slug := some b.brand_slug
          processor_model := some hs.processor_model
          ram_gb := some hs.ram_gb
          storage_capacity_gb := some hs.storage_capacity_gb
          gpu_model := some hs.gpu_model
          display_size_inches := some hs.display_size_inches
          min_price := (avail.map fun i => i.unit_price).min?
          available_from := some avail.length : LaptopObj })
    |>.head?

/-- The enrichment of one AI recommendation (health.ts lines 94-129):
spread of the AI fields plus the `laptop` lookup. -/
def enrichRecommendation (db : Database) (rec : AiRecommendation) : RecItem :=
  { spec_id := rec.spec_id
    relevance_score := rec.relevance_score
    matched_features := rec.matched_features
    laptop := enrichmentQuery db rec.spec_id }

/-- The `reasons` array built by `generateRecommendationReason`
(health.ts lines 338-356), in push order.  Optional chaining on absent
keys (`laptop?.gpu_type` when the enrichment query selected no `gpu_type`)
yields `undefined`, which fails every comparison. -/
def reasonList (rec : RecItem) (prefs : UserPreferences) : List String :=
  (if prefs.primary_usage == Usage.Gaming
      && (rec.laptop.bind fun l => l.gpu_type) == some "Dedicated" then
    ["Dedicated GPU for gaming performance"]
  else []) ++
  (match rec.laptop.bind fun l => l.ram_gb with
   | some r => if 16 ≤ r then [toString r ++ "GB RAM for smooth multitasking"] else []
   | none => []) ++
  (if truthyBool prefs.prefer_thin_and_light && rec.laptop.isSome then
    ["Portable design for on-the-go use"]
  else []) ++
  (match prefs.max_budget, rec.laptop.bind fun l => l.min_price with
   | some mb, some p =>
      if mb != 0 && p != 0 then (if p ≤ mb then ["Within your budget"] else []) else []
   | _, _ => [])

/-- JavaScript `Array.prototype.join(', ')`. -/
def joinComma : List String → String
  | [] => ""
  | [x] => x
  | x :: xs => x ++ ", " ++ joinComma xs

/-- `generateRecommendationReason` (health.ts lines 334-359): the joined
reasons, or the fixed string when no reason was pushed. -/
def generateRecommendationReason (rec : RecItem) (prefs : UserPreferences) : String :=
  let reasons := reasonList rec prefs
  if 0 < reasons.length then joinComma reasons else "Matches your preferences"

/-- The note string attached to fallback responses (health.ts line 171). -/
def fallbackNote : String := "Fallback recommendations (AI service unavailable)"

/-- The `data` object of a recommendations response
(health.ts lines 153-157 and 167-172). -/
structure ResponseData where
  recommendations : List RecItem
  user_preferences : UserPreferences
  generated_at : String
  note : Option String
  deriving DecidableEq, Repr

/-- A recommendations response body. -/
structure ApiResponse where
  success : Bool
  data : ResponseData
  deriving DecidableEq, Repr

/-- The response sent on the primary path (health.ts lines 151-158):
no `note` and no other marker field. -/
def primaryResponse (recs : List RecItem) (prefs : UserPreferences)
    (now : String) : ApiResponse :=
  { success := true
    data := { recommendations := recs, user_preferences := prefs,
              generated_at := now, note := none } }

/-- The response sent on the fallback path (health.ts lines 165-173):
same shape plus the `note` string. -/
def fallbackResponse (recs : List RecItem) (prefs : UserPreferences)
    (now : String) : ApiResponse :=
  { success := true
    data := { recommendations := recs, user_preferences := prefs,
              generated_at := now, note := some fallbackNote } }

/-- The analytics inserts (health.ts lines 131-149): one insert per enriched
recommendation; each failed insert is caught (`.catch`) and replaced by a
`app.log.warn` message, so the combined step always succeeds.  `insertOk i`
is the database's verdict on the i-th insert. -/
def recordAnalytics (recs : List RecItem) (insertOk : Nat → Bool) : List String :=
  ((List.range recs.length).filter fun i => ! insertOk i).map
    fun _ => "Failed to store recommendation"

/-- A parsed request body (`recommendationSchema.parse`, health.ts line 74). -/
structure RecommendationBody where
  user_preferences : UserPreferences
  top_k : Nat
  deriving DecidableEq, Repr

/-- What one invocation of the POST / handler produces: the reply (or the
error escaping the handler) and the warnings logged along the way. -/
structure HandlerOutput where
  result : Except JsError ApiResponse
  warnings : List String
  deriving Repr

/-- The POST / handler after body parsing (health.ts lines 77-174): on an AI
success, enrich, record analytics (failures only logged) and reply; on any AI
failure, the catch block calls `getFallbackRecommendations` and replies with
its rows — if that call itself throws, the error escapes the handler. -/
def handlePostRecommendations (db : Database) (aiResult : Except String AiResponse)
    (body : RecommendationBody) (insertOk : Nat → Bool) (now : String) : HandlerOutput :=
  match aiResult with
  | .ok ai =>
    let enriched := ai.recommendations.map (enrichRecommendation db)
    { result := .ok (primaryResponse enriched body.user_preferences now)
      warnings := recordAnalytics enriched insertOk }
  | .error _ =>
    match runGetFallbackRecommendations db body.user_preferences body.top_k with
    | .ok recs =>
      { result := .ok (fallbackResponse recs body.user_preferences now)
        warnings := [] }
    | .error e => { result := .error e, warnings := [] }

/-- A JSON value (request bodies).  Numbers are modelled as integers: no
claim depends on fractional request values. -/
inductive Json where
  | null
  | bool (b : Bool)
  | num (v : Int)
  | str (s : String)
  | arr (elems : List Json)
  | obj (fields : List (String × Json))

/-- Key lookup on a JSON object; `none` both for a missing key and for a
non-object (JavaScript `undefined`). -/
def Json.getField : Json → String → Option Json
  | .obj fields, k => (fields.find? fun p => p.1 == k).map fun p => p.2
  | _, _ => none

/-- A zod validation failure (the kind and path are enough for the claims:
the route surfaces any failure as a rejected request). -/
inductive ParseError where
  | invalidType (path : String)
  | required (path : String)
  | invalidEnum (path : String)
  | tooSmall (path : String)
  | tooBig (path : String)
  deriving DecidableEq, Repr

/-- `z.number().optional()` on one object key: absent is fine, a present
non-number fails. -/
def parseOptNum (path : String) : Option Json → Except ParseError (Option Int)
  | none => .ok none
  | some (.num v) => .ok (some v)
  | some _ => .error (.invalidType path)

/-- `z.boolean().optional()` on one object key. -/
def parseOptBool (path : String) : Option Json → Except ParseError (Option Bool)
  | none => .ok none
  | some (.bool b) => .ok (some b)
  | some _ => .error (.invalidType path)

/-- The `z.enum([...])` of `primary_usage` — a required field: absence is a
failure, as is any string outside the eight literals. -/
def parseUsage (path : String) : Option Json → Except ParseError Usage
  | none => .error (.required path)
  | some (.str s) =>
    if s == "Gaming" then .ok .Gaming
    else if s == "Programming" then .ok .Programming
    else if s == "Design" then .ok .Design
    else if s == "Video Editing" then .ok .VideoEditing
    else if s == "Office" then .ok .Office
    else if s == "Student" then .ok .Student
    else if s == "General" then .ok .General
    else if s == "Workstation" then .ok .Workstation
    else .error (.invalidEnum path)
  | some _ => .error (.invalidType path)

/-- The `z.enum(['Integrated', 'Dedicated', 'Hybrid']).optional()` of
`preferred_gpu_type`. -/
def parseOptGpu (path : String) : Option Json → Except ParseError (Option GpuType)
  | none => .ok none
  | some (.str s) =>
    if s == "Integrated" then .ok (some .Integrated)
    else if s == "Dedicated" then .ok (some .Dedicated)
    else if s == "Hybrid" then .ok (some .Hybrid)
    else .error (.invalidEnum path)
  | some _ => .error (.invalidType path)

/-- The inner `z.object` of `user_preferences` (health.ts lines 53-63).
Keys not named in the schema are stripped, not rejected. -/
def parseUserPreferences (j : Json) : Except ParseError UserPreferences :=
  match j with
  | .obj _ => do
    let min_budget ← parseOptNum "user_preferences.min_budget" (j.getField "min_budget")
    let max_budget ← parseOptNum "user_preferences.max_budget" (j.getField "max_budget")
    let primary_usage ← parseUsage "user_preferences.primary_usage" (j.getField "primary_usage")
    let min_ram_gb ← parseOptNum "user_preferences.min_ram_gb" (j.getField "min_ram_gb")
    let min_storage_gb ← parseOptNum "user_preferences.min_storage_gb" (j.getField "min_storage_gb")
    let preferred_gpu_type ← parseOptGpu "user_preferences.preferred_gpu_type"
      (j.getField "preferred_gpu_type")
    let min_display_size ← parseOptNum "user_preferences.min_display_size"
      (j.getField "min_display_size")
    let max_weight_kg ← parseOptNum "user_preferences.max_weight_kg" (j.getField "max_weight_kg")
    let prefer_thin_and_light ← parseOptBool "user_preferences.prefer_thin_and_light"
      (j.getField "prefer_thin_and_light")
    pure { min_budget := min_budget, max_budget := max_budget,
           primary_usage := primary_usage, min_ram_gb := min_ram_gb,
           min_storage_gb := min_storage_gb, preferred_gpu_type := preferred_gpu_type,
           min_display_size := min_display_size, max_weight_kg := max_weight_kg,
           prefer_thin_and_light := prefer_thin_and_light }
  | _ => .error (.invalidType "user_preferences")

/-- `z.number().int().min(1).max(20).default(5)` for `top_k`
(health.ts line 64).  On the integer JSON model the `.int()` refinement is
vacuous; absence yields the default 5. -/
def parseTopK : Option Json → Except ParseError Nat
  | none => .ok 5
  | some (.num v) =>
    if v < 1 then .error (.tooSmall "top_k")
    else if 20 < v then .error (.tooBig "top_k")
    else .ok v.toNat
  | some _ => .error (.invalidType "top_k")

/-- `recommendationSchema.parse` (health.ts lines 52-65, applied at line 74):
the outer object with a required `user_preferences` object and an optional,
bounded `top_k`. -/
def recommendationSchemaParse (j : Json) : Except ParseError RecommendationBody :=
  match j with
  | .obj _ => do
    let prefs ← match j.getField "user_preferences" with
      | none => .error (.required "user_preferences")
      | some inner => parseUserPreferences inner
    let top_k ← parseTopK (j.getField "top_k")
    pure { user_preferences := prefs, top_k := top_k }
  | _ => .error (.invalidType "body")

/-- A failure surfaced by the POST / route: a body-parse failure (thrown
before the try block, health.ts line 74) or a runtime error escaping the
handler. -/
inductive RouteFailure where
  | validation (e : ParseError)
  | js (e : JsError)
  deriving DecidableEq, Repr

/-- The whole POST / route: parse the raw body, then run the handler. -/
def postRecommendationsRoute (db : Database) (raw : Json)
    (aiResult : Except String AiResponse) (insertOk : Nat → Bool) (now : String) :
    Except RouteFailure ApiResponse × List String :=
  match recommendationSchemaParse raw with
  | .error e => (.error (.validation e), [])
  | .ok body =>
    let out := handlePostRecommendations db aiResult body insertOk now
    (match out.result with
     | .ok r => .ok r
     | .error e => .error (.js e), out.warnings)

/-- Rendering of one optional numeric preference back to JSON object fields:
an absent preference contributes no key. -/
def renderOptNum (key : String) : Option Int → List (String × Json)
  | none => []
  | some v => [(key, .num v)]

/-- Rendering of the optional boolean preference. -/
def renderOptBool (key : String) : Option Bool → List (String × Json)
  | none => []
  | some b => [(key, .bool b)]

/-- Rendering of the optional GPU-class preference. -/
def renderOptGpu (key : String) : Option GpuType → List (String × Json)
  | none => []
  | some g => [(key, .str g.toDbString)]

/-- A `user_preferences` JSON object carrying exactly the declared
preferences of `p` — each absent field is a missing key. -/
def renderPrefs (p : UserPreferences) : Json :=
  .obj (renderOptNum "min_budget" p.min_budget
    ++ renderOptNum "max_budget" p.max_budget
    ++ [("primary_usage", .str p.primary_usage.toJsonString)]
    ++ renderOptNum "min_ram_gb" p.min_ram_gb
    ++ renderOptNum "min_storage_gb" p.min_storage_gb
    ++ renderOptGpu "preferred_gpu_type" p.preferred_gpu_type
    ++ renderOptNum "min_display_size" p.min_display_size
    ++ renderOptNum "max_weight_kg" p.max_weight_kg
    ++ renderOptBool "prefer_thin_and_light" p.prefer_thin_and_light)

/-- A request body with the given preferences and no `top_k` key. -/
def renderBody (p : UserPreferences) : Json :=
  .obj [("user_preferences", renderPrefs p)]

/-- A request body with the given preferences and an explicit `top_k`. -/
def renderBodyTopK (p : UserPreferences) (v : Int) : Json :=
  .obj [("user_preferences", renderPrefs p), ("top_k", .num v)]

/-- A (model, brand, spec) triple of the three-way inner join shared by the
trending, by-usage and browse queries. -/
structure ModelJoin where
  lm : LaptopModel
  b : Brand
  hs : HardwareSpec
  deriving DecidableEq, Repr

/-- `laptop_models JOIN brands JOIN hardware_specs`, in table-scan order. -/
def modelJoinRows (db : Database) : List ModelJoin :=
  db.laptop_models.flatMap fun lm =>
    (db.brands.filter fun b => b.brand_id == lm.brand_id).flatMap fun b =>
      (db.hardware_specs.filter fun hs => hs.spec_id == lm.spec_id).map fun hs =>
        { lm := lm, b := b, hs := hs }

/-- `MIN(i.unit_price)` over the LEFT JOIN `inventory ... AND i.is_available
= true` of one model group (SQL `MIN` is NULL on an empty group). -/
def minAvailablePrice (db : Database) (modelId : Nat) : Option Int :=
  ((db.inventory.filter fun i => i.model_id == modelId && i.is_available).map
    fun i => i.unit_price).min?

/-- Ascending comparison with SQL `NULL` ordered last (PostgreSQL default
for `ASC`). -/
def optLeNullsLast : Option Int → Option Int → Prop
  | some x, some y => x ≤ y
  | some _, none => True
  | none, some _ => False
  | none, none => True

instance : DecidableRel optLeNullsLast := fun a b => by
  cases a <;> cases b <;> simp [optLeNullsLast] <;> infer_instance

/-- A row of the GET /trending result (health.ts lines 180-203). -/
structure TrendingRow where
  model_id : Nat
  model_name : String
  series : String
  brand_name : String
  ram_gb : Int
  storage_capacity_gb : Int
  gpu_type : String
  min_price : Option Int
  recommendation_count : Nat
  deriving DecidableEq, Repr

/-- The SELECT list of GET /trending for one model group:
`COUNT(r.recommendation_id)` counts the recommendations of the last 7 days
(`r.created_at > NOW() - INTERVAL '7 days'`), with `now` passed in. -/
def trendingRowOf (db : Database) (now : Int) (mj : ModelJoin) : TrendingRow :=
  { model_id := mj.lm.model_id
    model_name := mj.lm.model_name
    series := mj.lm.series
    brand_name := mj.b.brand_name
    ram_gb := mj.hs.ram_gb
    storage_capacity_gb := mj.hs.storage_capacity_gb
    gpu_type := mj.hs.gpu_type
    min_price := minAvailablePrice db mj.lm.model_id
    recommendation_count :=
      (db.recommendations.filter fun r =>
        r.model_id == mj.lm.model_id && decide (now - 7 < r.created_at)).length }

/-- `ORDER BY recommendation_count DESC, min_price ASC` (health.ts line 200). -/
def trendingLe (a b : TrendingRow) : Prop :=
  b.recommendation_count < a.recommendation_count ∨
    (a.recommendation_count = b.recommendation_count ∧
      optLeNullsLast a.min_price b.min_price)

instance : DecidableRel trendingLe := fun _ _ => by unfold trendingLe; infer_instance

/-- GET /trending (health.ts lines 178-209): join, keep non-discontinued
models, aggregate per model, sort, `LIMIT 10`. -/
def trendingQuery (db : Database) (now : Int) : List TrendingRow :=
  ((((modelJoinRows db).filter fun mj => !mj.lm.is_discontinued).map
    (trendingRowOf db now)).insertionSort trendingLe).take 10

/-- One entry of the `usageSpecs` lookup table of GET /by-usage
(health.ts lines 218-225).  Only `min_ram_gb`, `min_cores` and
`min_refresh_rate` are ever turned into SQL conditions (lines 233-249); the
other keys are present in the table but never read. -/
structure UsageSpec where
  min_gpu_score : Option Int := none
  min_ram_gb : Option Int := none
  min_refresh_rate : Option Int := none
  min_cores : Option Int := none
  min_display_quality : Option Int := none
  max_weight_kg : Option Int := none
  min_battery : Option Int := none
  max_price : Option Int := none
  deriving DecidableEq, Repr

/-- The `usageSpecs` record literal (health.ts lines 218-225). -/
def usageSpecsTable : List (String × UsageSpec) :=
  [("gaming", { min_gpu_score := some 5, min_ram_gb := some 16, min_refresh_rate := some 120 }),
   ("programming", { min_ram_gb := some 16, min_cores := some 6 }),
   ("design", { min_display_quality := some 6, min_ram_gb := some 16 }),
   ("video editing", { min_ram_gb := some 32, min_cores := some 8 }),
   ("office", { max_weight_kg := some 2, min_battery := some 60 }),
   ("student", { max_price := some 150000, min_ram_gb := some 8 })]

/-- JavaScript `String.prototype.toLowerCase()` on the ASCII usage keys. -/
def asciiLowerChar (c : Char) : Char :=
  if 'A' ≤ c ∧ c ≤ 'Z' then Char.ofNat (c.toNat + 32) else c

/-- ASCII lowering of a whole string (the usage keys are ASCII). -/
def asciiLower (s : String) : String := ⟨s.data.map asciiLowerChar⟩

/-- `usageSpecs[usage.toLowerCase()] || {}` (health.ts line 227). -/
def lookupUsageSpec (usage : String) : UsageSpec :=
  ((usageSpecsTable.find? fun p => p.1 == asciiLower usage).map fun p => p.2).getD {}

/-- The WHERE clause of GET /by-usage (health.ts lines 229-251):
`lm.is_discontinued = false` plus the conditions for the truthy entries of
the usage spec. -/
def byUsageConds (spec : UsageSpec) (mj : ModelJoin) : Bool :=
  (!mj.lm.is_discontinued)
    && condTruthyGe spec.min_ram_gb mj.hs.ram_gb
    && condTruthyGe spec.min_cores mj.hs.processor_cores
    && condTruthyGe spec.min_refresh_rate mj.hs.refresh_rate_hz

/-- A row of the GET /by-usage result (health.ts lines 253-277). -/
structure ByUsageRow where
  model_id : Nat
  model_name : String
  series : String
  brand_name : String
  processor_model : String
  processor_cores : Int
  ram_gb : Int
  storage_capacity_gb : Int
  gpu_type : String
  gpu_model : String
  display_size_inches : Int
  refresh_rate_hz : Int
  weight_kg : Int
  min_price : Option Int
  deriving DecidableEq, Repr

/-- The SELECT list of GET /by-usage for one model group. -/
def byUsageRowOf (db : Database) (mj : ModelJoin) : ByUsageRow :=
  { model_id := mj.lm.model_id
    model_name := mj.lm.model_name
    series := mj.lm.series
    brand_name := mj.b.brand_name
    processor_model := mj.hs.processor_model
    processor_cores := mj.hs.processor_cores
    ram_gb := mj.hs.ram_gb
    storage_capacity_gb := mj.hs.storage_capacity_gb
    gpu_type := mj.hs.gpu_type
    gpu_model := mj.hs.gpu_model
    display_size_inches := mj.hs.display_size_inches
    refresh_rate_hz := mj.hs.refresh_rate_hz
    weight_kg := mj.hs.weight_kg
    min_price := minAvailablePrice db mj.lm.model_id }

/-- `ORDER BY min_price ASC` (health.ts line 275). -/
def byUsagePriceLe (a b : ByUsageRow) : Prop := optLeNullsLast a.min_price b.min_price

instance : DecidableRel byUsagePriceLe := fun _ _ => by unfold byUsagePriceLe; infer_instance

/-- `parseInt((request.query as any).limit) || 10` (health.ts line 215):
an absent or unparsable limit, and also an explicit 0, fall back to 10. -/
def byUsageLimit : Option Nat → Nat
  | none => 10
  | some 0 => 10
  | some n => n

/-- GET /by-usage/:usage (health.ts lines 212-288). -/
def byUsageQuery (db : Database) (usage : String) (limitParam : Option Nat) :
    List ByUsageRow :=
  (((((modelJoinRows db).filter (byUsageConds (lookupUsageSpec usage))).map
    (byUsageRowOf db)).insertionSort byUsagePriceLe).take (byUsageLimit limitParam))

/-- The filter query parameters of GET / in laptops.ts (lines 11-23),
as parsed values; `none` is an absent (or empty, hence falsy) parameter. -/
structure BrowseParams where
  brand : Option String := none
  minRam : Option Int := none
  maxRam : Option Int := none
  minStorage : Option Int := none
  maxStorage : Option Int := none
  gpuType : Option String := none
  minPrice : Option Int := none
  maxPrice : Option Int := none
  series : Option String := none
  limit : Nat := 50
  offset : Nat := 0
  deriving Repr

/-- The WHERE clause of the browse query (laptops.ts lines 25-71):
`lm.is_discontinued = false` plus one condition per present filter.  Note
`minPrice` and `maxPrice` are destructured from the query string but never
pushed as conditions. -/
def browseConds (p : BrowseParams) (mj : ModelJoin) : Bool :=
  (!mj.lm.is_discontinued)
    && (match p.brand with | some s => mj.b.brand_slug == s | none => true)
    && condTruthyGe p.minRam mj.hs.ram_gb
    && condTruthyLe p.maxRam mj.hs.ram_gb
    && condTruthyGe p.minStorage mj.hs.storage_capacity_gb
    && condTruthyLe p.maxStorage mj.hs.storage_capacity_gb
    && (match p.gpuType with | some s => mj.hs.gpu_type == s | none => true)
    && (match p.series with | some s => mj.lm.series == s | none => true)

/-- A row of the browse result (laptops.ts lines 73-100): the model, brand
and spec columns plus the three aggregates over the LEFT JOIN
`inventory ... AND i.is_available = true AND i.stock_quantity > 0`. -/
structure BrowseRow where
  model_id : Nat
  model_name : String
  model_number : String
  series : String
  release_year : Int
  short_description : String
  product_image_url : String
  brand_id : Nat
  brand_name : String
  brand_slug : String
  processor_brand : String
  processor_model : String
  processor_cores : Int
  ram_gb : Int
  storage_type : String
  storage_capacity_gb : Int
  gpu_type : String
  gpu_brand : String
  gpu_model : String
  display_size_inches : Int
  display_resolution : String
  weight_kg : Int
  battery_whr : Int
  min_price : Option Int
  max_price : Option Int
  available_count : Nat
  deriving DecidableEq, Repr

/-- The SELECT list of the browse query for one model group. -/
def browseRowOf (db : Database) (mj : ModelJoin) : BrowseRow :=
  let stocked := db.inventory.filter fun i =>
    i.model_id == mj.lm.model_id && i.is_available && decide (0 < i.stock_quantity)
  { model_id := mj.lm.model_id
    model_name := mj.lm.model_name
    model_number := mj.lm.model_number
    series := mj.lm.series
    release_year := mj.lm.release_year
    short_description := mj.lm.short_description
    product_image_url := mj.lm.product_image_url
    brand_id := mj.b.brand_id
    brand_name := mj.b.brand_name
    brand_slug := mj.b.brand_slug
    processor_brand := mj.hs.processor_brand
    processor_model := mj.hs.processor_model
    processor_cores := mj.hs.processor_cores
    ram_gb := mj.hs.ram_gb
    storage_type := mj.hs.storage_type
    storage_capacity_gb := mj.hs.storage_capacity_gb
    gpu_type := mj.hs.gpu_type
    gpu_brand := mj.hs.gpu_brand
    gpu_model := mj.hs.gpu_model
    display_size_inches := mj.hs.display_size_inches
    display_resolution := mj.hs.display_resolution
    weight_kg := mj.hs.weight_kg
    battery_whr := mj.hs.battery_whr
    min_price := (stocked.map fun i => i.unit_price).min?
    max_price := (stocked.map fun i => i.unit_price).max?
    available_count := stocked.length }

/-- `ORDER BY lm.model_name` (laptops.ts line 106). -/
def browseNameLe (a b : BrowseRow) : Prop := a.model_name ≤ b.model_name

instance : DecidableRel browseNameLe := fun _ _ => by unfold browseNameLe; infer_instance

/-- GET / of laptops.ts (lines 10-125): join, filter, aggregate per model,
sort by model name, `LIMIT $n OFFSET $m`. -/
def browseQuery (db : Database) (p : BrowseParams) : List BrowseRow :=
  (((((modelJoinRows db).filter (browseConds p)).map
    (browseRowOf db)).insertionSort browseNameLe).drop p.offset).take p.limit

/-- Modelled from the spec: the ai-compute service behind
`POST /api/v1/recommend` is not part of this repository (only its caller in
health.ts is).  Per §4.3 of the spec, after hard filtering and scoring it
sorts the scored candidates descending by relevance score (step 4) and
truncates to `topK` (step 5).  `scored` stands for the list after steps
1-3. -/
def aiScoreGe (a b : AiRecommendation) : Prop :=
  b.relevance_score ≤ a.relevance_score

instance : DecidableRel aiScoreGe := fun _ _ => by unfold aiScoreGe; infer_instance

/-- Modelled from the spec: steps 4-5 of §4.3 — sort descending by score,
truncate to `topK`. -/
def aiComputeRecommend (scored : List AiRecommendation) (topK : Nat) :
    List AiRecommendation :=
  ((scored.insertionSort aiScoreGe).take topK)

/-! ## Shared lemmas about the fallback pipeline -/

/-- Every returned fallback recommendation is the image of a joined row that
passed the WHERE clause. -/
theorem mem_fallback_decomp {db : Database} {prefs : UserPreferences} {k : Nat}
    {r : RecItem} (hr : r ∈ getFallbackRecommendations db prefs k) :
    ∃ jr, jr ∈ innerJoinRows db ∧ fallbackConds prefs jr = true ∧
      r = fallbackRecOfRow jr := by
  unfold getFallbackRecommendations at hr
  obtain ⟨jr, hjr, rfl⟩ := List.mem_map.mp hr
  have h1 : jr ∈ fallbackSorted db prefs := List.mem_of_mem_take hjr
  have h2 : jr ∈ fallbackFilterRows db prefs :=
    (List.perm_insertionSort priceLe _).mem_iff.mp h1
  have h3 := List.mem_filter.mp h2
  exact ⟨jr, h3.1, h3.2, rfl⟩

theorem condTruthyLe_elim {v x : Int} (h : condTruthyLe (some v) x = true)
    (hv : v ≠ 0) : x ≤ v := by
  simp only [condTruthyLe, bne_iff_ne, ne_eq, hv, not_false_eq_true, if_true,
    decide_eq_true_eq] at h
  exact h

theorem condTruthyGe_elim {v x : Int} (h : condTruthyGe (some v) x = true)
    (hv : v ≠ 0) : v ≤ x := by
  simp only [condTruthyGe, bne_iff_ne, ne_eq, hv, not_false_eq_true, if_true,
    decide_eq_true_eq] at h
  exact h

theorem condGpu_elim {g : GpuType} {s : String} (h : condGpu (some g) s = true) :
    s = g.toDbString := by
  simpa [condGpu] using h

/-- The rows of the post-sort, post-truncation fallback list are pairwise
ordered by ascending unit price. -/
theorem fallback_take_pairwise (db : Database) (prefs : UserPreferences) (k : Nat) :
    List.Pairwise priceLe ((fallbackSorted db prefs).take k) :=
  List.Pairwise.sublist (List.take_sublist k _)
    (List.sorted_insertionSort priceLe (fallbackFilterRows db prefs))

/-- The price-ascending relation on response items, read back through the
`laptop.min_price` field both paths populate. -/
def recPriceLe (a b : RecItem) : Prop :=
  ∀ pa pb, (a.laptop.bind fun l => l.min_price) = some pa →
    (b.laptop.bind fun l => l.min_price) = some pb → pa ≤ pb

theorem fallback_pairwise_recPriceLe (db : Database) (prefs : UserPreferences)
    (k : Nat) :
    List.Pairwise recPriceLe (getFallbackRecommendations db prefs k) := by
  unfold getFallbackRecommendations
  refine List.pairwise_map.mpr ?_
  refine (fallback_take_pairwise db prefs k).imp ?_
  intro a b h pa pb hpa hpb
  simp only [fallbackRecOfRow, selectFallbackRow, Option.some_bind,
    Option.some.injEq] at hpa hpb
  subst hpa
  subst hpb
  exact h

/-! ## Sample data used by the witnesses -/

/-- A one-model catalog whose single row satisfies the declared constraints
of `samplePrefs`. -/
def sampleDb : Database :=
  { laptop_models := [{ model_id := 1, brand_id := 1, spec_id := 1,
                        model_name := "ThinkPad E14", is_discontinued := false }]
    brands := [{ brand_id := 1, brand_name := "Lenovo", brand_slug := "lenovo" }]
    hardware_specs := [{ spec_id := 1, ram_gb := 16, gpu_type := "Integrated" }]
    inventory := [{ inventory_id := 1, model_id := 1, unit_price := 150000,
                    is_available := true, stock_quantity := 4 }] }

def samplePrefs : UserPreferences :=
  { primary_usage := .Student, max_budget := some 200000, min_ram_gb := some 8,
    preferred_gpu_type := some .Integrated }

/-- The single joined row of `sampleDb`. -/
def sampleRow : JoinedRow :=
  { lm := { model_id := 1, brand_id := 1, spec_id := 1,
            model_name := "ThinkPad E14", is_discontinued := false }
    b := { brand_id := 1, brand_name := "Lenovo", brand_slug := "lenovo" }
    hs := { spec_id := 1, ram_gb := 16, gpu_type := "Integrated" }
    i := { inventory_id := 1, model_id := 1, unit_price := 150000,
           is_available := true, stock_quantity := 4 } }

theorem sample_fallback_eval :
    getFallbackRecommendations sampleDb samplePrefs 5 = [fallbackRecOfRow sampleRow] := rfl

theorem sample_mem :
    fallbackRecOfRow sampleRow ∈ getFallbackRecommendations sampleDb samplePrefs 5 := by
  rw [sample_fallback_eval]
  exact List.mem_singleton.mpr rfl

/-! ## C1: hard-constraint soundness of the fallback filter -/

/-- A catalog whose single in-stock row is priced below the declared minimum
budget and heavier than the declared maximum weight. -/
def c1Db : Database :=
  { laptop_models := [{ model_id := 1, brand_id := 1, spec_id := 1,
                        model_name := "BudgetBook", is_discontinued := false }]
    brands := [{ brand_id := 1, brand_name := "BrandX", brand_slug := "brandx" }]
    hardware_specs := [{ spec_id := 1, ram_gb := 8, gpu_type := "Integrated",
                         weight_kg := 5 }]
    inventory := [{ inventory_id := 1, model_id := 1, unit_price := 100000,
                    is_available := true, stock_quantity := 2 }] }

/-- Preferences declaring a minimum budget of 200000 and a maximum weight
of 1 kg. -/
def c1Prefs : UserPreferences :=
  { primary_usage := .Student, min_budget := some 200000, max_weight_kg := some 1 }

/-- C1 counterexample: with `min_budget = 200000` and `max_weight_kg = 1`
declared, the fallback path still returns the 100000-priced, 5 kg item —
the fallback query never pushes a minimum-budget or maximum-weight
condition (health.ts lines 369-391 filter only on discontinued/available/
stock, `max_budget`, `min_ram_gb` and `preferred_gpu_type`), so the claim
that every returned item satisfies all declared hard constraints is false. -/
theorem c1_min_budget_weight_counterexample :
    ((getFallbackRecommendations c1Db c1Prefs 5).map fun r =>
        r.laptop.bind fun l => l.min_price) = [some 100000]
      ∧ c1Prefs.min_budget = some 200000
      ∧ (100000 : Int) < 200000
      ∧ (c1Db.hardware_specs.map fun hs => hs.weight_kg) = [5]
      ∧ c1Prefs.max_weight_kg = some 1
      ∧ (1 : Int) < 5 :=
  ⟨rfl, rfl, by decide, rfl, rfl, by decide⟩

/-- C1 (amended): every item returned by the fallback path comes from a
joined row that is not discontinued, has an available offer with positive
stock, and satisfies the declared maximum budget, minimum RAM and GPU-class
constraints; the declared minimum budget, minimum storage, minimum display
size and maximum weight are not enforced by this path. -/
theorem c1_fallback_enforced_filters (db : Database) (prefs : UserPreferences)
    (k : Nat) (r : RecItem) (hr : r ∈ getFallbackRecommendations db prefs k) :
    ∃ jr, jr ∈ innerJoinRows db ∧ r = fallbackRecOfRow jr ∧
      jr.lm.is_discontinued = false ∧ jr.i.is_available = true ∧
      0 < jr.i.stock_quantity ∧
      (∀ mb, prefs.max_budget = some mb → mb ≠ 0 → jr.i.unit_price ≤ mb) ∧
      (∀ mr, prefs.min_ram_gb = some mr → mr ≠ 0 → mr ≤ jr.hs.ram_gb) ∧
      (∀ g, prefs.preferred_gpu_type = some g → jr.hs.gpu_type = g.toDbString) := by
  obtain ⟨jr, hjr, hc, rfl⟩ := mem_fallback_decomp hr
  unfold fallbackConds at hc
  simp only [Bool.and_eq_true, Bool.not_eq_true', decide_eq_true_eq] at hc
  obtain ⟨⟨⟨⟨⟨hdisc, havail⟩, hstock⟩, hmb⟩, hram⟩, hgpu⟩ := hc
  refine ⟨jr, hjr, rfl, hdisc, havail, hstock, ?_, ?_, ?_⟩
  · intro mb hmb' hne
    rw [hmb'] at hmb
    exact condTruthyLe_elim hmb hne
  · intro mr hmr' hne
    rw [hmr'] at hram
    exact condTruthyGe_elim hram hne
  · intro g hg'
    rw [hg'] at hgpu
    exact condGpu_elim hgpu

/-- Witness for C1's amended theorem at a concrete catalog and preference
set where every handled constraint is declared. -/
theorem c1_fallback_enforced_filters_witness :
    ∃ jr, jr ∈ innerJoinRows sampleDb ∧ fallbackRecOfRow sampleRow = fallbackRecOfRow jr ∧
      jr.lm.is_discontinued = false ∧ jr.i.is_available = true ∧
      0 < jr.i.stock_quantity ∧
      (∀ mb, samplePrefs.max_budget = some mb → mb ≠ 0 → jr.i.unit_price ≤ mb) ∧
      (∀ mr, samplePrefs.min_ram_gb = some mr → mr ≠ 0 → mr ≤ jr.hs.ram_gb) ∧
      (∀ g, samplePrefs.preferred_gpu_type = some g → jr.hs.gpu_type = g.toDbString) :=
  c1_fallback_enforced_filters sampleDb samplePrefs 5 (fallbackRecOfRow sampleRow) sample_mem

/-! ## C3: fixed fallback score and price-ascending order -/

/-- C3: every fallback candidate carries the fixed relevance score 0.5 (both
as the item's `relevance_score` and inside the selected row), and the
returned list is ordered ascending by the live unit price each row was
selected with. -/
theorem c3_fallback_score_and_price_order (db : Database)
    (prefs : UserPreferences) (k : Nat) :
    (∀ r ∈ getFallbackRecommendations db prefs k,
        r.relevance_score = fallbackScore
          ∧ (r.laptop.bind fun l => l.relevance_score) = some fallbackScore)
      ∧ fallbackScore = 1 / 2
      ∧ List.Pairwise recPriceLe (getFallbackRecommendations db prefs k) := by
  refine ⟨?_, rfl, fallback_pairwise_recPriceLe db prefs k⟩
  intro r hr
  obtain ⟨jr, _, _, rfl⟩ := mem_fallback_decomp hr
  exact ⟨rfl, rfl⟩

/-- Witness for C3 at a concrete catalog. -/
theorem c3_fallback_score_and_price_order_witness :
    (fallbackRecOfRow sampleRow).relevance_score = fallbackScore
      ∧ ((fallbackRecOfRow sampleRow).laptop.bind fun l => l.relevance_score)
        = some fallbackScore :=
  (c3_fallback_score_and_price_order sampleDb samplePrefs 5).1
    (fallbackRecOfRow sampleRow) sample_mem

/-! ## C6: tie-breaking of the fallback order -/

/-- Two models under one brand and one spec, with equal-priced in-stock
offers; the model scanned first is named "Zephyrus", the second "Aspire". -/
def c6Db : Database :=
  { laptop_models :=
      [{ model_id := 1, brand_id := 1, spec_id := 1, model_name := "Zephyrus",
         is_discontinued := false },
       { model_id := 2, brand_id := 1, spec_id := 1, model_name := "Aspire",
         is_discontinued := false }]
    brands := [{ brand_id := 1, brand_name := "BrandY", brand_slug := "brandy" }]
    hardware_specs := [{ spec_id := 1, ram_gb := 16, gpu_type := "Dedicated" }]
    inventory :=
      [{ inventory_id := 1, model_id := 1, unit_price := 100000,
         is_available := true, stock_quantity := 1 },
       { inventory_id := 2, model_id := 2, unit_price := 100000,
         is_available := true, stock_quantity := 1 }] }

def c6Prefs : UserPreferences := { primary_usage := .General }

/-- C6 counterexample: the fallback query orders by `i.unit_price ASC` alone
(health.ts line 409) — no model-name tie-break.  On two candidates with equal
relevance score (both 0.5) and equal price, the returned order follows the
scan order "Zephyrus", "Aspire", which is not model-name ascending. -/
theorem c6_no_model_name_tiebreak_counterexample :
    ((getFallbackRecommendations c6Db c6Prefs 5).map fun r =>
        r.laptop.bind fun l => l.model_name) = [some "Zephyrus", some "Aspire"]
      ∧ ((getFallbackRecommendations c6Db c6Prefs 5).map fun r =>
          r.relevance_score) = [fallbackScore, fallbackScore]
      ∧ ((getFallbackRecommendations c6Db c6Prefs 5).map fun r =>
          r.laptop.bind fun l => l.min_price) = [some 100000, some 100000]
      ∧ ¬ ("Zephyrus" ≤ "Aspire") :=
  ⟨rfl, rfl, rfl, not_le.mpr (String.lt_iff_toList_lt.mpr (by decide))⟩

/-- `List.orderedInsert` commutes with a map that preserves the comparison. -/
theorem orderedInsert_map {α β : Type} (r : α → α → Prop) (s : β → β → Prop)
    [DecidableRel r] [DecidableRel s] (g : β → α)
    (hg : ∀ a b, r (g a) (g b) ↔ s a b) (a : β) :
    ∀ l : List β,
      List.orderedInsert r (g a) (l.map g) = (List.orderedInsert s a l).map g
  | [] => rfl
  | b :: t => by
    simp only [List.map_cons, List.orderedInsert]
    by_cases h : s a b
    · rw [if_pos ((hg a b).mpr h), if_pos h]
      rfl
    · rw [if_neg (fun hr => h ((hg a b).mp hr)), if_neg h, List.map_cons,
        orderedInsert_map r s g hg a t]

/-- `List.insertionSort` commutes with a map that preserves the comparison. -/
theorem insertionSort_map {α β : Type} (r : α → α → Prop) (s : β → β → Prop)
    [DecidableRel r] [DecidableRel s] (g : β → α)
    (hg : ∀ a b, r (g a) (g b) ↔ s a b) :
    ∀ l : List β,
      List.insertionSort r (l.map g) = (List.insertionSort s l).map g
  | [] => rfl
  | b :: t => by
    simp only [List.map_cons, List.insertionSort]
    rw [insertionSort_map r s g hg t, orderedInsert_map r s g hg b]

/-- Renaming every model of the catalog (only the `model_name` column). -/
def renameModels (f : String → String) (db : Database) : Database :=
  { db with laptop_models := db.laptop_models.map fun lm =>
      { lm with model_name := f lm.model_name } }

/-- The same renaming on a joined row. -/
def renameJR (f : String → String) (jr : JoinedRow) : JoinedRow :=
  { jr with lm := { jr.lm with model_name := f jr.lm.model_name } }

/-- The same renaming on a returned recommendation item. -/
def renameRecItem (f : String → String) (r : RecItem) : RecItem :=
  { r with laptop := r.laptop.map fun l =>
      { l with model_name := l.model_name.map f } }

theorem innerJoinRows_rename (f : String → String) (db : Database) :
    innerJoinRows (renameModels f db) = (innerJoinRows db).map (renameJR f) := by
  unfold innerJoinRows renameModels
  simp only [List.flatMap_map, List.map_flatMap, List.map_map]
  rfl

/-- C6 (amended): the fallback result is ordered ascending by live unit
price only.  The query names no further sort key: renaming every model name
leaves the selection and its order untouched (the returned list is the
renamed copy, position by position), so equal-price ties are not ordered by
model name; in this embedding they keep the database scan order. -/
theorem c6_price_only_deterministic_order (db : Database)
    (prefs : UserPreferences) (k : Nat) (f : String → String) :
    List.Pairwise recPriceLe (getFallbackRecommendations db prefs k)
      ∧ getFallbackRecommendations (renameModels f db) prefs k
        = (getFallbackRecommendations db prefs k).map (renameRecItem f) := by
  refine ⟨fallback_pairwise_recPriceLe db prefs k, ?_⟩
  unfold getFallbackRecommendations fallbackSorted fallbackFilterRows
  rw [innerJoinRows_rename]
  rw [List.filter_map]
  rw [show (fallbackConds prefs ∘ renameJR f) = fallbackConds prefs
    from funext fun jr => rfl]
  rw [insertionSort_map priceLe priceLe (renameJR f) (fun _ _ => Iff.rfl)]
  rw [← List.map_take, List.map_map, List.map_map]
  rfl

/-! ## C2: behavior of the handler when the primary path fails -/

/-- C2 (code bug): for every request on which the primary path fails, the
catch block's call to `getFallbackRecommendations` resolves the free
identifier `db` (health.ts line 415), which is bound neither in that
function nor at module scope (the module imports only `getPool`); the call
throws `ReferenceError` and the error escapes the handler, so the caller
receives an internal error, not the fallback ranking the handler's own
catch block (health.ts lines 159-174) sets out to return. -/
theorem c2_fallback_db_reference_error (db : Database) (body : RecommendationBody)
    (insertOk : Nat → Bool) (now : String) (msg : String) :
    "db" ∉ fallbackVisibleNames
      ∧ runGetFallbackRecommendations db body.user_preferences body.top_k
        = .error (.referenceError "db")
      ∧ (handlePostRecommendations db (.error msg) body insertOk now).result
        = .error (.referenceError "db")
      ∧ (handlePostRecommendations db (.error msg) body insertOk now).warnings = [] := by
  have hmem : "db" ∉ fallbackVisibleNames := by decide
  refine ⟨hmem, ?_, ?_, ?_⟩
  · unfold runGetFallbackRecommendations
    rw [if_neg hmem]
  · unfold handlePostRecommendations runGetFallbackRecommendations
    rw [if_neg hmem]
  · unfold handlePostRecommendations runGetFallbackRecommendations
    rw [if_neg hmem]

/-! ## C7: the source marker of a response -/

/-- Modelled from the spec (§3 `RecommendationResult`, §6 Response): a
response "carries a flag with value primary or fallback".  In the
implemented response shape (health.ts lines 151-158 and 165-173) the only
field that varies between the two paths is the optional `note` string, so
the claim holds of a response iff that field carries one of the two enum
values. -/
def carriesSourceFlag (r : ApiResponse) : Prop :=
  r.data.note = some "primary" ∨ r.data.note = some "fallback"

def c7Prefs : UserPreferences := { primary_usage := .Office }

/-- C7 counterexample: a successfully served primary response carries no
source value at all — its `note` field is absent (health.ts lines 151-158
attach no marker), so no response field has the value `primary`. -/
theorem c7_primary_unmarked_counterexample :
    (handlePostRecommendations sampleDb (.ok { recommendations := [] })
        { user_preferences := c7Prefs, top_k := 5 } (fun _ => true) "t0").result
      = .ok (primaryResponse [] c7Prefs "t0")
      ∧ (primaryResponse [] c7Prefs "t0").data.note = none
      ∧ ¬ carriesSourceFlag (primaryResponse [] c7Prefs "t0") :=
  ⟨rfl, rfl, by simp [carriesSourceFlag, primaryResponse]⟩

/-- C7 (amended): only the fallback response is marked, and by a fixed
human-readable note string rather than a primary/fallback enum; the primary
response has no note, so the two paths are distinguishable only by the
note's presence. -/
theorem c7_note_marks_fallback_only (recs recs' : List RecItem)
    (prefs : UserPreferences) (now : String) :
    (primaryResponse recs prefs now).data.note = none
      ∧ (fallbackResponse recs' prefs now).data.note = some fallbackNote
      ∧ fallbackNote = "Fallback recommendations (AI service unavailable)"
      ∧ (some fallbackNote ≠ (none : Option String))
      ∧ ∀ (db : Database) (ai : AiResponse) (body : RecommendationBody)
          (insertOk : Nat → Bool),
          (handlePostRecommendations db (.ok ai) body insertOk now).result
            = .ok (primaryResponse (ai.recommendations.map (enrichRecommendation db))
                body.user_preferences now) :=
  ⟨rfl, rfl, rfl, by simp, fun _ _ _ _ => rfl⟩

/-! ## C8: analytics recording never affects the response -/

/-- C8: the reply of the POST / handler is the same function of the request
and the AI result whatever the analytics inserts do — each insert's failure
is caught and only logged (health.ts line 147). -/
theorem c8_analytics_failure_invisible (db : Database)
    (aiResult : Except String AiResponse) (body : RecommendationBody)
    (insertOk insertOk' : Nat → Bool) (now : String) :
    (handlePostRecommendations db aiResult body insertOk now).result
      = (handlePostRecommendations db aiResult body insertOk' now).result
      ∧ (∀ (recs : List RecItem) (i : Nat), i < recs.length → insertOk i = false →
          "Failed to store recommendation" ∈ recordAnalytics recs insertOk) := by
  constructor
  · cases aiResult <;> rfl
  · intro recs i hi hf
    unfold recordAnalytics
    refine List.mem_map.mpr ⟨i, ?_, rfl⟩
    refine List.mem_filter.mpr ⟨List.mem_range.mpr hi, ?_⟩
    simp [hf]

/-- A minimal recommendation item for the C8 witness. -/
def c8Rec : RecItem :=
  { spec_id := 1, relevance_score := fallbackScore, matched_features := [],
    laptop := none }

/-- Witness for C8 with a failing insert. -/
theorem c8_analytics_failure_invisible_witness :
    (handlePostRecommendations sampleDb (.ok { recommendations := [] })
        { user_preferences := c7Prefs, top_k := 5 } (fun _ => false) "t0").result
      = (handlePostRecommendations sampleDb (.ok { recommendations := [] })
          { user_preferences := c7Prefs, top_k := 5 } (fun _ => true) "t0").result
      ∧ "Failed to store recommendation" ∈ recordAnalytics [c8Rec] (fun _ => false) :=
  ⟨(c8_analytics_failure_invisible sampleDb (.ok { recommendations := [] })
      { user_preferences := c7Prefs, top_k := 5 } (fun _ => false) (fun _ => true) "t0").1,
   (c8_analytics_failure_invisible sampleDb (.ok { recommendations := [] })
      { user_preferences := c7Prefs, top_k := 5 } (fun _ => false) (fun _ => true) "t0").2
     [c8Rec] 0 (by decide) rfl⟩

/-! ## C9: the explanation generator never returns an empty reason -/

theorem joinComma_ne_empty {x : String} (hx : x ≠ "") :
    ∀ xs, joinComma (x :: xs) ≠ ""
  | [] => by simpa [joinComma] using hx
  | y :: ys => by
    intro h
    have hlen := congrArg String.length h
    have h2 : (", " : String).length = 2 := rfl
    simp [joinComma, String.length_append, h2] at hlen

/-- Every string pushed into the `reasons` array is nonempty. -/
theorem mem_reasonList_ne_empty (rec : RecItem) (prefs : UserPreferences)
    (s : String) (hs : s ∈ reasonList rec prefs) : s ≠ "" := by
  have hsuf : ("GB RAM for smooth multitasking" : String).length = 30 := rfl
  simp only [reasonList, List.mem_append] at hs
  rcases hs with ((h1 | h2) | h3) | h4
  · by_cases hc : prefs.primary_usage == Usage.Gaming
        && (rec.laptop.bind fun l => l.gpu_type) == some "Dedicated"
    · rw [if_pos hc] at h1
      rw [List.mem_singleton.mp h1]
      decide
    · rw [if_neg hc] at h1
      exact absurd h1 (List.not_mem_nil s)
  · rcases e : rec.laptop.bind fun l => l.ram_gb with _ | r
    · rw [e] at h2
      exact absurd h2 (List.not_mem_nil s)
    · rw [e] at h2
      have h2' : s ∈ (if 16 ≤ r then
          [toString r ++ "GB RAM for smooth multitasking"] else []) := h2
      by_cases hr : 16 ≤ r
      · rw [if_pos hr] at h2'
        rw [List.mem_singleton.mp h2']
        intro h
        have hlen := congrArg String.length h
        simp [String.length_append, hsuf] at hlen
      · rw [if_neg hr] at h2'
        exact absurd h2' (List.not_mem_nil s)
  · by_cases hc : truthyBool prefs.prefer_thin_and_light && rec.laptop.isSome
    · rw [if_pos hc] at h3
      rw [List.mem_singleton.mp h3]
      decide
    · rw [if_neg hc] at h3
      exact absurd h3 (List.not_mem_nil s)
  · rcases emb : prefs.max_budget with _ | mb <;>
      rcases ep : rec.laptop.bind fun l => l.min_price with _ | p <;>
      rw [emb, ep] at h4
    · exact absurd h4 (List.not_mem_nil s)
    · exact absurd h4 (List.not_mem_nil s)
    · exact absurd h4 (List.not_mem_nil s)
    · have h4' : s ∈ (if mb != 0 && p != 0 then
          (if p ≤ mb then ["Within your budget"] else []) else []) := h4
      by_cases hc : mb != 0 && p != 0
      · rw [if_pos hc] at h4'
        by_cases hle : p ≤ mb
        · rw [if_pos hle] at h4'
          rw [List.mem_singleton.mp h4']
          decide
        · rw [if_neg hle] at h4'
          exact absurd h4' (List.not_mem_nil s)
      · rw [if_neg hc] at h4'
        exact absurd h4' (List.not_mem_nil s)

/-- C9 counterexample: with no signal firing, the generator emits the
string "Matches your preferences" (health.ts line 358), not the
"matches your general preferences" wording the claim quotes. -/
def c9Rec : RecItem :=
  { spec_id := 1, relevance_score := fallbackScore, matched_features := [],
    laptop := some { ram_gb := some 8, gpu_type := some "Integrated",
                     min_price := some 999999 } }

def c9Prefs : UserPreferences :=
  { primary_usage := .Office, max_budget := some 100 }

theorem c9_generic_wording_counterexample :
    reasonList c9Rec c9Prefs = []
      ∧ generateRecommendationReason c9Rec c9Prefs = "Matches your preferences"
      ∧ "Matches your preferences" ≠ "matches your general preferences" :=
  ⟨rfl, rfl, by decide⟩

/-- C9 (amended): the generator's output is never the empty string, and when
none of the four signals applies (empty `reasons` array) it is exactly the
generic string "Matches your preferences". -/
theorem c9_reason_never_empty (rec : RecItem) (prefs : UserPreferences) :
    generateRecommendationReason rec prefs ≠ ""
      ∧ (reasonList rec prefs = [] →
          generateRecommendationReason rec prefs = "Matches your preferences") := by
  constructor
  · unfold generateRecommendationReason
    rcases e : reasonList rec prefs with _ | ⟨x, xs⟩
    · simp only [List.length_nil, lt_irrefl, if_false]
      decide
    · simp only [List.length_cons, Nat.zero_lt_succ, if_true]
      exact joinComma_ne_empty
        (mem_reasonList_ne_empty rec prefs x (e ▸ List.mem_cons_self x xs)) xs
  · intro h
    unfold generateRecommendationReason
    rw [h]
    rfl

/-- Witness for C9's amended theorem. -/
theorem c9_reason_never_empty_witness :
    generateRecommendationReason c9Rec c9Prefs ≠ ""
      ∧ generateRecommendationReason c9Rec c9Prefs = "Matches your preferences" :=
  ⟨(c9_reason_never_empty c9Rec c9Prefs).1,
   (c9_reason_never_empty c9Rec c9Prefs).2 rfl⟩

/-! ## Parsing lemmas for C4 and C5 -/

theorem find?_renderOptNum (key k : String) (o : Option Int) :
    (renderOptNum key o).find? (fun p => p.1 == k)
      = if key == k then o.map (fun v => (key, Json.num v)) else none := by
  cases o <;> cases h : key == k <;> simp [renderOptNum, List.find?, h]

theorem find?_renderOptBool (key k : String) (o : Option Bool) :
    (renderOptBool key o).find? (fun p => p.1 == k)
      = if key == k then o.map (fun v => (key, Json.bool v)) else none := by
  cases o <;> cases h : key == k <;> simp [renderOptBool, List.find?, h]

theorem find?_renderOptGpu (key k : String) (o : Option GpuType) :
    (renderOptGpu key o).find? (fun p => p.1 == k)
      = if key == k then o.map (fun v => (key, Json.str v.toDbString)) else none := by
  cases o <;> cases h : key == k <;> simp [renderOptGpu, List.find?, h]

theorem parseOptNum_map (path : String) (o : Option Int) :
    parseOptNum path (o.map Json.num) = .ok o := by
  cases o <;> rfl

theorem parseOptBool_map (path : String) (o : Option Bool) :
    parseOptBool path (o.map Json.bool) = .ok o := by
  cases o <;> rfl

theorem parseOptGpu_map (path : String) (o : Option GpuType) :
    parseOptGpu path (o.map fun g => Json.str g.toDbString) = .ok o := by
  rcases o with _ | g
  · rfl
  · cases g <;> rfl

theorem parseUsage_toJsonString (path : String) (u : Usage) :
    parseUsage path (some (.str u.toJsonString)) = .ok u := by
  cases u <;> rfl

theorem find?_primaryUsage (k : String) (us : Usage) :
    List.find? (fun p => p.1 == k) [("primary_usage", Json.str us.toJsonString)]
      = if ("primary_usage" == k) = true then
          some ("primary_usage", Json.str us.toJsonString)
        else none := by
  cases h : "primary_usage" == k <;> simp [List.find?, h]

set_option maxHeartbeats 1000000 in
/-- Parsing a rendered preference object recovers exactly the preferences:
every combination of present and absent optional fields is accepted. -/
theorem parseUserPreferences_render (p : UserPreferences) :
    parseUserPreferences (renderPrefs p) = .ok p := by
  obtain ⟨mb, xb, us, mr, ms, pg, md, mw, tl⟩ := p
  simp only [parseUserPreferences, renderPrefs, Json.getField, List.find?_append,
    find?_renderOptNum, find?_renderOptBool, find?_renderOptGpu, find?_primaryUsage]
  simp +decide only [if_true, if_false, Option.or_some,
    Option.none_or, Option.or_none, Option.map_some, Option.map_some', Option.map_none,
    Option.map_map, Function.comp_def,
    parseOptNum_map, parseOptBool_map, parseOptGpu_map, parseUsage_toJsonString]
  rfl

/-- Whether a zod parse succeeded (the route replies normally) or threw
(the request is rejected). -/
def parseSucceeds {α : Type} : Except ParseError α → Bool
  | .ok _ => true
  | .error _ => false

theorem getField_renderBody_prefs (p : UserPreferences) :
    (Json.obj [("user_preferences", renderPrefs p)]).getField "user_preferences"
      = some (renderPrefs p) := rfl

theorem getField_renderBody_topk (p : UserPreferences) :
    (Json.obj [("user_preferences", renderPrefs p)]).getField "top_k" = none := rfl

theorem getField_renderBodyTopK_prefs (p : UserPreferences) (v : Int) :
    (Json.obj [("user_preferences", renderPrefs p),
      ("top_k", Json.num v)]).getField "user_preferences"
      = some (renderPrefs p) := rfl

theorem getField_renderBodyTopK_topk (p : UserPreferences) (v : Int) :
    (Json.obj [("user_preferences", renderPrefs p),
      ("top_k", Json.num v)]).getField "top_k" = some (.num v) := rfl

/-- Parsing a rendered body with no `top_k` key accepts and defaults
`top_k` to 5. -/
theorem schemaParse_renderBody (p : UserPreferences) :
    recommendationSchemaParse (renderBody p)
      = .ok { user_preferences := p, top_k := 5 } := by
  simp only [recommendationSchemaParse, renderBody, getField_renderBody_prefs,
    getField_renderBody_topk, parseUserPreferences_render, parseTopK]
  rfl

theorem parseTopK_num (v : Int) :
    parseTopK (some (.num v))
      = if v < 1 then .error (.tooSmall "top_k")
        else if 20 < v then .error (.tooBig "top_k")
        else .ok v.toNat := rfl

/-- Parsing a rendered body with an explicit numeric `top_k` reduces to the
`top_k` bound checks. -/
theorem schemaParse_renderBodyTopK (p : UserPreferences) (v : Int) :
    recommendationSchemaParse (renderBodyTopK p v)
      = parseTopK (some (.num v)) >>= fun k =>
          pure { user_preferences := p, top_k := k } := by
  have h : recommendationSchemaParse (renderBodyTopK p v)
      = (parseUserPreferences (renderPrefs p) >>= fun prefs =>
          parseTopK (some (.num v)) >>= fun k =>
            (pure { user_preferences := prefs, top_k := k }
              : Except ParseError RecommendationBody)) := rfl
  rw [h, parseUserPreferences_render]
  rfl

/-! ## C4: which requests the schema accepts -/

/-- C4 counterexample: a request whose `user_preferences` object is present
but empty — every preference field missing — is rejected, because
`primary_usage` is declared as a required enum (health.ts line 56, no
`.optional()`), contradicting "never rejects a request for missing
preference fields". -/
theorem c4_missing_usage_rejected_counterexample :
    parseSucceeds (recommendationSchemaParse (.obj [("user_preferences", .obj [])]))
        = false
      ∧ recommendationSchemaParse (.obj [("user_preferences", .obj [])])
        = .error (.required "user_preferences.primary_usage") :=
  ⟨rfl, rfl⟩

/-- C4 (amended): every preference field except `primary_usage` is
independently optional — any combination of present and absent optional
fields parses, with absence meaning no preference — and unknown fields are
stripped rather than rejected; but `primary_usage` is required, and a
malformed (wrongly typed) declared field rejects the request instead of
being dropped. -/
theorem c4_fields_optional_except_usage :
    (∀ p : UserPreferences, recommendationSchemaParse (renderBody p)
        = .ok { user_preferences := p, top_k := 5 })
      ∧ (∀ v q : Int, recommendationSchemaParse
          (.obj [("user_preferences",
              .obj [("primary_usage", .str "Gaming"), ("favorite_color", .num v)]),
            ("unexpected", .num q)])
          = .ok { user_preferences := { primary_usage := .Gaming }, top_k := 5 })
      ∧ (∀ s : String, parseSucceeds (recommendationSchemaParse
          (.obj [("user_preferences",
              .obj [("primary_usage", .str "Gaming"), ("min_ram_gb", .str s)])]))
          = false)
      ∧ parseSucceeds (recommendationSchemaParse (.obj [("user_preferences", .obj [])]))
        = false :=
  ⟨schemaParse_renderBody, fun _ _ => rfl, fun _ => rfl, rfl⟩

/-! ## C5: top_k bounds, default, and truncation -/

/-- C5: `top_k` defaults to 5 when absent and accepts exactly 1..20 when
present; the fallback result has `min top_k qualifying` entries — at most
`top_k`, and exactly the qualifying rows (no padding) when fewer qualify;
the spec-modelled primary engine also truncates to `top_k`. -/
theorem c5_topk_bounds_and_truncation :
    (∀ p : UserPreferences,
        (recommendationSchemaParse (renderBody p)).map (fun b => b.top_k) = .ok 5)
      ∧ (∀ (p : UserPreferences) (v : Int), 1 ≤ v → v ≤ 20 →
          recommendationSchemaParse (renderBodyTopK p v)
            = .ok { user_preferences := p, top_k := v.toNat })
      ∧ (∀ (p : UserPreferences) (v : Int), v < 1 ∨ 20 < v →
          parseSucceeds (recommendationSchemaParse (renderBodyTopK p v)) = false)
      ∧ (∀ (db : Database) (prefs : UserPreferences) (k : Nat),
          (getFallbackRecommendations db prefs k).length
            = min k (fallbackFilterRows db prefs).length)
      ∧ (∀ (db : Database) (prefs : UserPreferences) (k : Nat),
          (fallbackFilterRows db prefs).length ≤ k →
            getFallbackRecommendations db prefs k
              = (fallbackSorted db prefs).map fallbackRecOfRow)
      ∧ (∀ (scored : List AiRecommendation) (topK : Nat),
          (aiComputeRecommend scored topK).length ≤ topK) := by
  refine ⟨?_, ?_, ?_, ?_, ?_, ?_⟩
  · intro p
    rw [schemaParse_renderBody]
    rfl
  · intro p v h1 h2
    rw [schemaParse_renderBodyTopK, parseTopK_num,
      if_neg (not_lt.mpr h1), if_neg (not_lt.mpr h2)]
    rfl
  · intro p v h
    rcases h with h | h
    · rw [schemaParse_renderBodyTopK, parseTopK_num, if_pos h]
      rfl
    · rw [schemaParse_renderBodyTopK, parseTopK_num,
        if_neg (by omega : ¬ v < 1), if_pos h]
      rfl
  · intro db prefs k
    unfold getFallbackRecommendations fallbackSorted
    rw [List.length_map, List.length_take, List.length_insertionSort]
  · intro db prefs k h
    unfold getFallbackRecommendations
    have hlen : (fallbackSorted db prefs).length ≤ k := by
      unfold fallbackSorted
      rw [List.length_insertionSort]
      exact h
    rw [List.take_of_length_le hlen]
  · intro scored topK
    unfold aiComputeRecommend
    rw [List.length_take]
    exact min_le_left _ _

/-- Witness for C5 at concrete values: an in-range `top_k` accepted, an
out-of-range one rejected, and a truncation-free small catalog. -/
theorem c5_topk_bounds_and_truncation_witness :
    recommendationSchemaParse (renderBodyTopK c7Prefs 7)
        = .ok { user_preferences := c7Prefs, top_k := (7 : Int).toNat }
      ∧ parseSucceeds (recommendationSchemaParse (renderBodyTopK c7Prefs 25)) = false
      ∧ getFallbackRecommendations sampleDb samplePrefs 5
        = (fallbackSorted sampleDb samplePrefs).map fallbackRecOfRow :=
  ⟨c5_topk_bounds_and_truncation.2.1 c7Prefs 7 (by decide) (by decide),
   c5_topk_bounds_and_truncation.2.2.1 c7Prefs 25 (Or.inr (by decide)),
   c5_topk_bounds_and_truncation.2.2.2.2.1 sampleDb samplePrefs 5 (by decide)⟩

/-! ## C10: discontinued models never surface -/

theorem lm_mem_of_mem_modelJoinRows {db : Database} {mj : ModelJoin}
    (h : mj ∈ modelJoinRows db) : mj.lm ∈ db.laptop_models := by
  unfold modelJoinRows at h
  obtain ⟨lm, hlm, h2⟩ := List.mem_flatMap.mp h
  obtain ⟨b, _, h3⟩ := List.mem_flatMap.mp h2
  obtain ⟨hs, _, h4⟩ := List.mem_map.mp h3
  rw [← h4]
  exact hlm

theorem lm_mem_of_mem_innerJoinRows {db : Database} {jr : JoinedRow}
    (h : jr ∈ innerJoinRows db) : jr.lm ∈ db.laptop_models := by
  unfold innerJoinRows at h
  obtain ⟨lm, hlm, h2⟩ := List.mem_flatMap.mp h
  obtain ⟨b, _, h3⟩ := List.mem_flatMap.mp h2
  obtain ⟨hs, _, h4⟩ := List.mem_flatMap.mp h3
  obtain ⟨i, _, h5⟩ := List.mem_map.mp h4
  rw [← h5]
  exact hlm

theorem mem_trendingQuery_decomp {db : Database} {now : Int} {row : TrendingRow}
    (h : row ∈ trendingQuery db now) :
    ∃ mj, mj ∈ modelJoinRows db ∧ mj.lm.is_discontinued = false
      ∧ row = trendingRowOf db now mj := by
  unfold trendingQuery at h
  have h1 := (List.perm_insertionSort trendingLe _).mem_iff.mp (List.mem_of_mem_take h)
  obtain ⟨mj, hmj, rfl⟩ := List.mem_map.mp h1
  have h2 := List.mem_filter.mp hmj
  exact ⟨mj, h2.1, by simpa using h2.2, rfl⟩

theorem mem_byUsageQuery_decomp {db : Database} {usage : String}
    {limitParam : Option Nat} {row : ByUsageRow}
    (h : row ∈ byUsageQuery db usage limitParam) :
    ∃ mj, mj ∈ modelJoinRows db ∧ mj.lm.is_discontinued = false
      ∧ row = byUsageRowOf db mj := by
  unfold byUsageQuery at h
  have h1 := (List.perm_insertionSort byUsagePriceLe _).mem_iff.mp (List.mem_of_mem_take h)
  obtain ⟨mj, hmj, rfl⟩ := List.mem_map.mp h1
  have h2 := List.mem_filter.mp hmj
  have h3 := h2.2
  simp only [byUsageConds, Bool.and_eq_true, Bool.not_eq_true'] at h3
  exact ⟨mj, h2.1, h3.1.1.1, rfl⟩

theorem mem_browseQuery_decomp {db : Database} {bp : BrowseParams} {row : BrowseRow}
    (h : row ∈ browseQuery db bp) :
    ∃ mj, mj ∈ modelJoinRows db ∧ mj.lm.is_discontinued = false
      ∧ row = browseRowOf db mj := by
  unfold browseQuery at h
  have h0 := List.mem_of_mem_drop (List.mem_of_mem_take h)
  have h1 := (List.perm_insertionSort browseNameLe _).mem_iff.mp h0
  obtain ⟨mj, hmj, rfl⟩ := List.mem_map.mp h1
  have h2 := List.mem_filter.mp hmj
  have h3 := h2.2
  simp only [browseConds, Bool.and_eq_true, Bool.not_eq_true'] at h3
  exact ⟨mj, h2.1, h3.1.1.1.1.1.1.1, rfl⟩

/-- C10: the browse listing, the trending endpoint, the by-usage endpoint and
the fallback query all push `lm.is_discontinued = false`, so each returned
row comes from a non-discontinued model of the catalog. -/
theorem c10_discontinued_never_returned (db : Database) (now : Int)
    (usage : String) (limitParam : Option Nat) (bp : BrowseParams)
    (prefs : UserPreferences) (k : Nat) :
    (∀ row ∈ trendingQuery db now, ∃ lm ∈ db.laptop_models,
        lm.model_id = row.model_id ∧ lm.is_discontinued = false)
      ∧ (∀ row ∈ byUsageQuery db usage limitParam, ∃ lm ∈ db.laptop_models,
          lm.model_id = row.model_id ∧ lm.is_discontinued = false)
      ∧ (∀ row ∈ browseQuery db bp, ∃ lm ∈ db.laptop_models,
          lm.model_id = row.model_id ∧ lm.is_discontinued = false)
      ∧ (∀ r ∈ getFallbackRecommendations db prefs k, ∃ lm ∈ db.laptop_models,
          lm.model_id = r.spec_id ∧ lm.is_discontinued = false) := by
  refine ⟨?_, ?_, ?_, ?_⟩
  · intro row hrow
    obtain ⟨mj, hmj, hdisc, rfl⟩ := mem_trendingQuery_decomp hrow
    exact ⟨mj.lm, lm_mem_of_mem_modelJoinRows hmj, rfl, hdisc⟩
  · intro row hrow
    obtain ⟨mj, hmj, hdisc, rfl⟩ := mem_byUsageQuery_decomp hrow
    exact ⟨mj.lm, lm_mem_of_mem_modelJoinRows hmj, rfl, hdisc⟩
  · intro row hrow
    obtain ⟨mj, hmj, hdisc, rfl⟩ := mem_browseQuery_decomp hrow
    exact ⟨mj.lm, lm_mem_of_mem_modelJoinRows hmj, rfl, hdisc⟩
  · intro r hr
    obtain ⟨jr, hjr, hc, rfl⟩ := mem_fallback_decomp hr
    unfold fallbackConds at hc
    simp only [Bool.and_eq_true, Bool.not_eq_true'] at hc
    exact ⟨jr.lm, lm_mem_of_mem_innerJoinRows hjr, rfl, hc.1.1.1.1.1⟩

/-- The (model, brand, spec) triple of `sampleDb`. -/
def sampleMJ : ModelJoin :=
  { lm := { model_id := 1, brand_id := 1, spec_id := 1,
            model_name := "ThinkPad E14", is_discontinued := false }
    b := { brand_id := 1, brand_name := "Lenovo", brand_slug := "lenovo" }
    hs := { spec_id := 1, ram_gb := 16, gpu_type := "Integrated" } }

/-- Witness for C10: each of the four queries returns a row on `sampleDb`,
and that row's model is a non-discontinued catalog model. -/
theorem c10_discontinued_never_returned_witness :
    (∃ lm ∈ sampleDb.laptop_models,
        lm.model_id = (trendingRowOf sampleDb 0 sampleMJ).model_id
          ∧ lm.is_discontinued = false)
      ∧ (∃ lm ∈ sampleDb.laptop_models,
          lm.model_id = (byUsageRowOf sampleDb sampleMJ).model_id
            ∧ lm.is_discontinued = false)
      ∧ (∃ lm ∈ sampleDb.laptop_models,
          lm.model_id = (browseRowOf sampleDb sampleMJ).model_id
            ∧ lm.is_discontinued = false)
      ∧ (∃ lm ∈ sampleDb.laptop_models,
          lm.model_id = (fallbackRecOfRow sampleRow).spec_id
            ∧ lm.is_discontinued = false) :=
  ⟨(c10_discontinued_never_returned sampleDb 0 "general" none {} samplePrefs 5).1
      (trendingRowOf sampleDb 0 sampleMJ)
      (by rw [show trendingQuery sampleDb 0 = [trendingRowOf sampleDb 0 sampleMJ] from rfl]
          exact List.mem_singleton.mpr rfl),
   (c10_discontinued_never_returned sampleDb 0 "general" none {} samplePrefs 5).2.1
      (byUsageRowOf sampleDb sampleMJ)
      (by rw [show byUsageQuery sampleDb "general" none = [byUsageRowOf sampleDb sampleMJ]
            from rfl]
          exact List.mem_singleton.mpr rfl),
   (c10_discontinued_never_returned sampleDb 0 "general" none {} samplePrefs 5).2.2.1
      (browseRowOf sampleDb sampleMJ)
      (by rw [show browseQuery sampleDb {} = [browseRowOf sampleDb sampleMJ] from rfl]
          exact List.mem_singleton.mpr rfl),
   (c10_discontinued_never_returned sampleDb 0 "general" none {} samplePrefs 5).2.2.2
      (fallbackRecOfRow sampleRow) sample_mem⟩
